import Mathlib

/-!
A verification development for the Parksy parking-assistant core
(`src/app.py`, class `Parksy`).

The Python source is shallowly embedded as follows.

* Python dicts that flow through the pipeline (raw provider records turned
  into "spot" dicts, their nested `position`/`pricing` dicts) are modelled as
  association lists `List (String × Val)` over an inductive value type `Val`,
  preserving the exact keys and insertion order of the source.  This keeps
  facts such as "a spot dict has no `isSynthetic` key" directly statable.
* Python floats are modelled as rationals `ℚ`; Python ints as `ℤ` (or `ℕ`
  for quantities that are syntactically natural, such as the clock hour).
* External collaborators (HERE geocoding, HERE discover search, OpenRouter
  chat completions), the haversine float computation `_calculate_distance`
  (transcendental float math), `random.randint`, `datetime.now().hour`, and
  the regex engine behind `extract_location_from_query` are modelled as
  oracle parameters collected in an `Env` structure.  Every theorem below
  quantifies over the whole `Env`, so each holds in particular for the real
  collaborators / real regex / real clock.
* Code that can raise a Python exception which is NOT caught inside the
  function itself (`handle_follow_up_question` and its indexing / `float()`
  parses) is modelled in `Except Unit`; `.error ()` models an uncaught
  exception.  Code whose body is wrapped in a catch-all `try/except`
  (`generate_ai_response`, the search passes) is total, with the `except`
  outcome selected by the corresponding oracle.
-/

/-- Python values stored in the dicts of the pipeline:
strings, ints, floats (as `ℚ`), bools, nested dicts, and lists. -/
inductive Val where
  | s : String → Val
  | i : ℤ → Val
  | q : ℚ → Val
  | b : Bool → Val
  | d : List (String × Val) → Val
  | l : List Val → Val

/-- A parking-spot record: a Python dict, kept as an ordered association list. -/
abbrev Spot := List (String × Val)

/-- `d.get(k)` for an association-list dict: the first binding of `k`, if any. -/
def dictGet (d : List (String × Val)) (k : String) : Option Val :=
  (d.find? (fun p => p.1 == k)).map (fun p => p.2)

/-- Python `d[k]`: a missing key raises `KeyError`, modelled as `.error ()`. -/
def dGetE (d : List (String × Val)) (k : String) : Except Unit Val :=
  match dictGet d k with
  | some v => Except.ok v
  | none => Except.error ()

/-- ASCII lower-casing of one character (Python `str.lower` restricted to the
ASCII range; every string the source lower-cases is ASCII). -/
def pyLowerChar (c : Char) : Char :=
  if 'A' ≤ c && c ≤ 'Z' then Char.ofNat (c.toNat + 32) else c

/-- Python `str.lower` (ASCII). Implemented over the character list so that it
reduces inside the kernel. -/
def pyLower (s : String) : String := ⟨s.data.map pyLowerChar⟩

/-- Worker for `pyReplace`: left-to-right, non-overlapping replacement, with a
`skip` counter so the recursion is structural on the character list. -/
def replAux (p r : List Char) (skip : ℕ) : List Char → List Char
  | [] => []
  | c :: t =>
    match skip with
    | n + 1 => replAux p r n t
    | 0 =>
      if p.isPrefixOf (c :: t) && !p.isEmpty then r ++ replAux p r (p.length - 1) t
      else c :: replAux p r 0 t

/-- Python `s.replace(pat, rep)` for a non-empty pattern (the source only ever
replaces the currency marker, which is non-empty). -/
def pyReplace (s pat rep : String) : String :=
  if pat.data.isEmpty then s else ⟨replAux pat.data rep.data 0 s.data⟩

/-- Worker for `hasSubstr` (structural on the haystack). -/
def hasSubstrGo (n : List Char) : List Char → Bool
  | [] => n.isEmpty
  | c :: t => n.isPrefixOf (c :: t) || hasSubstrGo n t

/-- Python `needle in hay` for strings: substring containment. -/
def hasSubstr (hay needle : String) : Bool := hasSubstrGo needle.data hay.data

/-- Parse a non-empty all-digit character list as a natural number. -/
def parseDigits : List Char → Option ℕ
  | [] => none
  | l => l.foldlM (fun acc c => if c.isDigit then some (acc * 10 + (c.toNat - 48)) else none) 0

/-- Python `float(s)` restricted to the shapes the program feeds it: an
unsigned decimal numeral `digits` or `digits.digits`.  Anything else raises
`ValueError`, modelled by `none`.  (Python `float` also accepts signs,
exponents and whitespace; no string in this program uses those forms.) -/
def parseFloatQ (s : String) : Option ℚ :=
  match s.data.splitOn '.' with
  | [w] => (parseDigits w).map (fun n => (n : ℚ))
  | [w, f] =>
    match parseDigits w, parseDigits f with
    | some n, some m => some ((n : ℚ) + (m : ℚ) / ((10 : ℚ) ^ f.length))
    | _, _ => none
  | _ => none

/-- Round a rational to 4 decimal places, scaled to an integer:
`round4 q = ⌊10000*q + 1/2⌋`, written over `num`/`den` with `Int.fdiv` so it
reduces inside the kernel.  This models the duplicate key `f"{x:.4f}"` of the
source: two coordinates format to the same string iff they round to the same
scaled integer (up to the `-0.0000`/`0.0000` formatting corner, and with
round-half-up standing in for float-to-decimal rounding of ties, which cannot
occur for the binary doubles the provider returns). -/
def round4 (q : ℚ) : ℤ := Int.fdiv (q.num * 20000 + q.den) (2 * q.den)

/-- Two-digit rendering of a value below 100 (for pence in money strings). -/
def twoDigit (n : ℕ) : String := (if n < 10 then "0" else "") ++ toString n

/-- The money string `f"¬£{r:.2f}"` of the source, with the amount carried in
pence.  Every rate in the source is an exact two-decimal amount, so carrying
pence is exact; `"¬£"` is the currency marker byte sequence as it appears in
the source file. -/
def moneyStr (pence : ℕ) : String :=
  "¬£" ++ toString (pence / 100) ++ "." ++ twoDigit (pence % 100)

/-- `true` iff an `Except` computation finished without raising. -/
def isOkE {α : Type} (e : Except Unit α) : Bool :=
  match e with
  | Except.ok _ => true
  | Except.error _ => false

/-- Python `f"{v}"` for the values that reach a format string in this program
(strings and ints; other shapes never reach one, see the call sites). -/
def fmtVal : Val → String
  | Val.s v => v
  | Val.i n => toString n
  | Val.b v => toString v
  | _ => ""

/-- Resolved location data, as built by `geocode_location` from the first
geocoder item.  All five keys are always present in the dict the source
builds (`city`/`district` default to `''` there), so a structure is a
faithful model and the downstream `.get('city', …)` defaults are
unreachable. -/
structure LocationInfo where
  lat : ℚ
  lng : ℚ
  address : String
  city : String
  district : String

/-- A raw provider record, holding exactly the fields
`_process_parking_spot` reads: `title`, `position` (lat/lng), the address
label, and the `contacts` value (opaque here).  A missing field is `none`,
matching the `.get` defaults of the source. -/
structure RawSpot where
  title : Option String
  position : Option (ℚ × ℚ)
  addressLabel : Option String
  contacts : Option Val

/-- Outcome of one OpenRouter chat-completions call:
a usable reply, a 2xx body without usable `choices`, or a raised
exception (transport error, non-2xx, malformed body). -/
inductive LLMOutcome where
  | ok : String → LLMOutcome
  | emptyChoices : LLMOutcome
  | fail : LLMOutcome

/-- The content of the call, when the response carried usable `choices`. -/
def LLMOutcome.content? : LLMOutcome → Option String
  | LLMOutcome.ok c => some c
  | _ => none

/-- The `last_parking_search` record: `{'spots': …, 'location': …}`; both
keys are written and read together, so a structure is faithful. -/
structure LastSearch where
  spots : List Spot
  location : String

/-- One history entry `{'user': …, 'assistant': …}`. -/
structure HistEntry where
  user : String
  assistant : String

/-- Per-session state: `{'history': […], 'last_parking_search': …}`. -/
structure SessionData where
  history : List HistEntry
  last_parking_search : Option LastSearch

/-- The oracle environment for one `process_query` turn: every external or
non-embeddable dependency of the core, as a parameter.  All theorems
quantify over it.

* `calcDist` stands for `_calculate_distance` (haversine over floats with
  `asin`/`sqrt`, truncated to `int`), applied to the query origin and the
  record coordinates;
* `searchItems q` is the `items` list the discover endpoint returns for the
  free-text query `q` (a failed pass contributes `[]`, exactly the effect of
  the source's `except: continue` / missing `items` key);
* `catItems c` likewise for the category-id pass `c`;
* `geocode` is `geocode_location` (`None` ↦ `none`);
* `extract_location` is the regex-based `extract_location_from_query`;
* `hour` is `datetime.datetime.now().hour`;
* `rand i lo hi` is the result of the `i`-th `random.randint(lo, hi)` call
  of `generate_mock_data`;
* `aiResult` / `chatResult` are the OpenRouter calls made by
  `generate_ai_response` and by the open-conversation branch of
  `process_query`. -/
structure Env where
  calcDist : ℚ → ℚ → ℚ → ℚ → ℤ
  searchItems : String → List RawSpot
  catItems : String → List RawSpot
  geocode : String → Option LocationInfo
  extract_location : String → Option String
  hour : ℕ
  rand : ℕ → ℤ → ℤ → ℤ
  aiResult : LLMOutcome
  chatResult : LLMOutcome

/-! ## The scorer / classifier / normalizer (`_calculate_score`,
`_get_features`, `_estimate_availability`, `_estimate_pricing`,
`_process_parking_spot`) -/

/-- `_calculate_score`: base 50, a distance band bonus, a type bonus, and the
final `max(0, min(100, score))` clamp. -/
def _calculate_score (distance : ℤ) (parking_type : String) : ℤ :=
  let score : ℤ := 50
  let score := if distance < 200 then score + 25
    else if distance < 500 then score + 20
    else if distance < 1000 then score + 15
    else score
  let score := if parking_type = "parking-garage" then score + 10
    else if parking_type = "ev-charging" then score + 15
    else score
  max 0 (min 100 score)

/-- `_get_features`: type-based tags plus a proximity tag. -/
def _get_features (parking_type : String) (distance : ℤ) : List Val :=
  let features : List Val :=
    if parking_type = "parking-garage" then [Val.s "Covered", Val.s "Secure"]
    else if parking_type = "ev-charging" then [Val.s "EV Charging", Val.s "Electric Vehicle Friendly"]
    else if parking_type = "on-street-parking" then [Val.s "Street Parking"]
    else []
  if distance < 200 then features ++ [Val.s "Very Close"]
  else if distance < 500 then features ++ [Val.s "Walking Distance"]
  else features

/-- `_estimate_availability`, with `datetime.datetime.now().hour` supplied as
`current_hour`.  Note the source's `8 <= current_hour <= 18` is inclusive at
both ends. -/
def _estimate_availability (parking_type : String) (current_hour : ℕ) : String :=
  if 8 ≤ current_hour ∧ current_hour ≤ 18 then
    if parking_type = "on-street-parking" then "Limited" else "Good"
  else "Excellent"

/-- `_estimate_pricing`, with the base rate carried in pence (all the
source's float rates are exact two-decimal amounts, so this is exact;
`daily = hourly * 7` likewise). -/
def _estimate_pricing (parking_type : String) (distance : ℤ) : List (String × Val) :=
  let base_pence : ℕ :=
    if parking_type = "parking-garage" then (if distance < 500 then 400 else 320)
    else if parking_type = "on-street-parking" then (if distance < 500 then 300 else 240)
    else if parking_type = "ev-charging" then 280
    else (if distance < 500 then 260 else 200)
  [("hourly_rate", Val.s (moneyStr base_pence)),
   ("daily_rate", Val.s (moneyStr (base_pence * 7))),
   ("estimated", Val.b true)]

/-- The rejection keywords of the normalizer. -/
def parkingTerms : List String := ["park", "garage", "car", "space", "charging"]

/-- The `position` value stored in a processed spot: the raw record's
`position` dict, or `{}` when absent (`spot.get('position', {})`). -/
def rawPosVal (r : RawSpot) : Val :=
  match r.position with
  | some pq => Val.d [("lat", Val.q pq.1), ("lng", Val.q pq.2)]
  | none => Val.d []

/-- The distance `_process_parking_spot` computes for a raw record:
`self._calculate_distance(user_lat, user_lng, spot.get('position',{})
.get('lat', 0), …)`, with the haversine oracle `cd`. -/
def rawDist (cd : ℚ → ℚ → ℚ → ℚ → ℤ) (user_lat user_lng : ℚ) (spot : RawSpot) : ℤ :=
  cd user_lat user_lng
    ((spot.position.map (fun p => p.1)).getD 0)
    ((spot.position.map (fun p => p.2)).getD 0)

/-- `_process_parking_spot`: normalize one raw record against the query
origin, or reject it (`None` ↦ `none`).  `cd` is the `_calculate_distance`
oracle; `hour` feeds `_estimate_availability`.  The body's `try/except` can
only fire on malformed field types, which the typed `RawSpot` rules out, so
the model has no extra failure case. -/
def _process_parking_spot (cd : ℚ → ℚ → ℚ → ℚ → ℤ) (hour : ℕ)
    (user_lat user_lng : ℚ) (spot : RawSpot) : Option Spot :=
  let distance : ℤ := rawDist cd user_lat user_lng spot
  let rawTitle : String := spot.title.getD ""
  if 3000 < distance ∨ rawTitle = "" then none
  else
    let title := rawTitle
    let title_lower := pyLower title
    if ¬ (parkingTerms.any (fun term => hasSubstr title_lower term)) then none
    else
      let parking_type : String :=
        if ["garage", "multi", "story"].any (fun term => hasSubstr title_lower term) then
          "parking-garage"
        else if ["street", "road", "meter"].any (fun term => hasSubstr title_lower term) then
          "on-street-parking"
        else if ["electric", "ev", "charging"].any (fun term => hasSubstr title_lower term) then
          "ev-charging"
        else "parking-lot"
      let walking_time : ℤ := max 1 (Int.fdiv distance 80)
      some
        [("name", Val.s title),
         ("address", Val.s (spot.addressLabel.getD "Address not available")),
         ("distance", Val.i distance),
         ("walking_time", Val.i walking_time),
         ("position", rawPosVal spot),
         ("parking_type", Val.s parking_type),
         ("pricing", Val.d (_estimate_pricing parking_type distance)),
         ("availability", Val.s (_estimate_availability parking_type hour)),
         ("features", Val.l (_get_features parking_type distance)),
         ("score", Val.i (_calculate_score distance parking_type)),
         ("contacts", spot.contacts.getD (Val.l []))]

/-! ## The deduplicator (`_is_duplicate`) -/

/-- The coordinate key of a spot: `position.lat`/`position.lng` (defaulting
to 0 when absent) each rounded to 4 decimal places — the scaled-integer model
of the source's `f"{lat:.4f},{lng:.4f}"` string key. -/
def dupKey (s : Spot) : ℤ × ℤ :=
  let pos : List (String × Val) :=
    match dictGet s "position" with
    | some (Val.d p) => p
    | _ => []
  let la : ℚ := match dictGet pos "lat" with | some (Val.q x) => x | _ => 0
  let ln : ℚ := match dictGet pos "lng" with | some (Val.q x) => x | _ => 0
  (round4 la, round4 ln)

/-- `_is_duplicate`: does any already-accepted spot have the same key? -/
def _is_duplicate (new_spot : Spot) (existing_spots : List Spot) : Bool :=
  existing_spots.any (fun s => dupKey s == dupKey new_spot)

/-! ## The aggregator (`search_parking`) -/

/-- One raw record of one pass, run through normalize → dedup-check → accept
(the body of the `for spot in data['items']` loops of `search_parking`). -/
def addRaw (cd : ℚ → ℚ → ℚ → ℚ → ℤ) (hour : ℕ) (ulat ulng : ℚ)
    (acc : List Spot) (raw : RawSpot) : List Spot :=
  match _process_parking_spot cd hour ulat ulng raw with
  | none => acc
  | some s => if _is_duplicate s acc then acc else acc ++ [s]

/-- One whole pass: fold `addRaw` over the pass's raw records. -/
def addPass (cd : ℚ → ℚ → ℚ → ℚ → ℤ) (hour : ℕ) (ulat ulng : ℚ)
    (acc : List Spot) (raws : List RawSpot) : List Spot :=
  raws.foldl (addRaw cd hour ulat ulng) acc

/-- The fixed free-text search queries. -/
def search_queries : List String :=
  ["parking", "car park", "parking garage", "street parking", "parking lot"]

/-- The fixed category-id backup passes. -/
def category_ids : List String := ["700-7600-0322", "700-7600-0323", "700-7600-0000"]

/-- The accumulated `all_spots` after the five text passes. -/
def all_spots_text (env : Env) (lat lng : ℚ) : List Spot :=
  search_queries.foldl
    (fun acc q => addPass env.calcDist env.hour lat lng acc (env.searchItems q)) []

/-- The accumulated `all_spots` after the conditional category backup
(`if len(all_spots) < 5`, checked once before the category loop). -/
def all_spots_acc (env : Env) (lat lng : ℚ) : List Spot :=
  let base := all_spots_text env lat lng
  if base.length < 5 then
    category_ids.foldl
      (fun acc c => addPass env.calcDist env.hour lat lng acc (env.catItems c)) base
  else base

/-- The sort key `x.get('score', 0)`. -/
def getScore (s : Spot) : ℤ :=
  match dictGet s "score" with
  | some (Val.i n) => n
  | _ => 0

/-- The sort order of `all_spots.sort(key=…, reverse=True)`: score
descending. -/
def scoreGe (a b : Spot) : Prop := getScore b ≤ getScore a

instance scoreGeDec : DecidableRel scoreGe := fun _ _ => Int.decLe _ _

instance scoreGeTotal : IsTotal Spot scoreGe := ⟨fun a b => le_total (getScore b) (getScore a)⟩

instance scoreGeTrans : IsTrans Spot scoreGe :=
  ⟨fun _ _ _ hab hbc => le_trans hbc hab⟩

/-- `search_parking`: run the passes, stably sort by score descending, and
return the top 10.  Python's `list.sort` is a stable sort; a stable sort of a
list by a total preorder has a unique result, so Mathlib's stable
`insertionSort` models it exactly. -/
def search_parking (env : Env) (lat lng : ℚ) : List Spot :=
  ((all_spots_acc env lat lng).insertionSort scoreGe).take 10

/-! ## The synthetic generator (`generate_mock_data`) and the backfill step
of `process_query` -/

/-- `generate_mock_data`: the four fixed archetype dicts, with the city name
substituted in and the eight `random.randint` draws taken from the oracle.
Note the mock dicts carry no `position`, no `contacts`, no `isSynthetic`
marker, and their `pricing` has no `estimated` flag. -/
def generate_mock_data (env : Env) (location_info : LocationInfo) : List Spot :=
  let city := location_info.city
  [[("name", Val.s (city ++ " Multi-Story Car Park")),
    ("address", Val.s ("High Street, " ++ city)),
    ("distance", Val.i (env.rand 0 80 300)),
    ("walking_time", Val.i (env.rand 1 2 4)),
    ("parking_type", Val.s "parking-garage"),
    ("pricing", Val.d [("hourly_rate", Val.s "¬£3.50"), ("daily_rate", Val.s "¬£18.00")]),
    ("availability", Val.s "Good"),
    ("score", Val.i 85),
    ("features", Val.l [Val.s "Covered", Val.s "Secure", Val.s "CCTV"])],
   [("name", Val.s (city ++ " Pay & Display Zone")),
    ("address", Val.s ("Market Street, " ++ city)),
    ("distance", Val.i (env.rand 2 50 250)),
    ("walking_time", Val.i (env.rand 3 1 3)),
    ("parking_type", Val.s "on-street-parking"),
    ("pricing", Val.d [("hourly_rate", Val.s "¬£2.80"), ("daily_rate", Val.s "Max 4 hours")]),
    ("availability", Val.s "Limited"),
    ("score", Val.i 70),
    ("features", Val.l [Val.s "Pay & Display", Val.s "Time Limited"])],
   [("name", Val.s (city ++ " Shopping Centre Car Park")),
    ("address", Val.s ("Retail Park, " ++ city)),
    ("distance", Val.i (env.rand 4 150 400)),
    ("walking_time", Val.i (env.rand 5 3 6)),
    ("parking_type", Val.s "parking-lot"),
    ("pricing", Val.d [("hourly_rate", Val.s "¬£2.20"), ("daily_rate", Val.s "¬£12.00")]),
    ("availability", Val.s "Excellent"),
    ("score", Val.i 75),
    ("features", Val.l [Val.s "Large Capacity", Val.s "Free Sundays"])],
   [("name", Val.s (city ++ " Council Car Park")),
    ("address", Val.s ("Town Centre, " ++ city)),
    ("distance", Val.i (env.rand 6 200 450)),
    ("walking_time", Val.i (env.rand 7 3 6)),
    ("parking_type", Val.s "parking-lot"),
    ("pricing", Val.d [("hourly_rate", Val.s "¬£1.80"), ("daily_rate", Val.s "¬£10.00")]),
    ("availability", Val.s "Good"),
    ("score", Val.i 72),
    ("features", Val.l [Val.s "Budget Option", Val.s "Council Run"])]]

/-- The search-plus-backfill block of `process_query`:
`parking_data = search_parking(...)`, then
`if len(parking_data) < 5: parking_data.extend(mock); parking_data[:10]`.
The combined list is NOT re-sorted. -/
def search_with_backfill (env : Env) (location_info : LocationInfo) : List Spot :=
  let parking_data := search_parking env location_info.lat location_info.lng
  if parking_data.length < 5 then
    (parking_data ++ generate_mock_data env location_info).take 10
  else parking_data

/-! ## The follow-up resolver (`handle_follow_up_question`) -/

/-- The follow-up vocabulary. -/
def followWords : List String := ["best", "recommend", "suggest", "which"]

/-- The key of `min(spots, key=lambda x: float(x.get('pricing', {})
.get('hourly_rate', '¬£99').replace('¬£', '')))`.  A present but non-dict
`pricing`, a present but non-string rate, or an unparsable rate raises
(`TypeError`/`ValueError`), modelled as `.error ()`; the `.get` defaults give
`float("99")`. -/
def cheapKey (s : Spot) : Except Unit ℚ :=
  let rateStrE : Except Unit String :=
    match dictGet s "pricing" with
    | some (Val.d dd) =>
      match dictGet dd "hourly_rate" with
      | some (Val.s str) => Except.ok str
      | none => Except.ok "¬£99"
      | some _ => Except.error ()
    | none => Except.ok "¬£99"
    | some _ => Except.error ()
  match rateStrE with
  | Except.error e => Except.error e
  | Except.ok str =>
    match parseFloatQ (pyReplace str "¬£" "") with
    | some q => Except.ok q
    | none => Except.error ()

/-- The key of `min(spots, key=lambda x: x.get('walking_time', 99))`.  A
present non-int value would make Python's comparisons raise, modelled as
`.error ()`. -/
def walkKey (s : Spot) : Except Unit ℤ :=
  match dictGet s "walking_time" with
  | some (Val.i n) => Except.ok n
  | none => Except.ok 99
  | some _ => Except.error ()

/-- Worker for `pyMin`: scan the tail, keeping the first strictly-smaller
element (Python `min` keeps the earliest element on ties). -/
def pyMinGo {κ : Type} (ltb : κ → κ → Bool) (key : Spot → Except Unit κ)
    (best : Spot) (bk : κ) : List Spot → Except Unit Spot
  | [] => Except.ok best
  | x :: xs =>
    match key x with
    | Except.error e => Except.error e
    | Except.ok kx =>
      if ltb kx bk then pyMinGo ltb key x kx xs else pyMinGo ltb key best bk xs

/-- Python `min(spots, key=…)`: raises on an empty list, propagates a raising
key, returns the first element with minimal key. -/
def pyMin {κ : Type} (ltb : κ → κ → Bool) (key : Spot → Except Unit κ) :
    List Spot → Except Unit Spot
  | [] => Except.error ()
  | x :: xs =>
    match key x with
    | Except.error e => Except.error e
    | Except.ok kx => pyMinGo ltb key x kx xs

/-- Python `v[k]` on a `Val`: indexing a non-dict raises. -/
def valIndexE (v : Val) (k : String) : Except Unit Val :=
  match v with
  | Val.d dd => dGetE dd k
  | _ => Except.error ()

/-- `handle_follow_up_question`, as a function of the user message and the
session record (the source reads `self.conversations.get(session_id, {})`;
the caller passes that session here).  Returns `.ok none` when the turn is
not a follow-up, `.ok (some r)` with the templated answer when it is, and
`.error ()` when the Python code would raise (empty cached `spots`, missing
keys, unparsable rate).  The emoji byte sequences decorating the template
lines are elided; no theorem inspects them. -/
def handle_follow_up_question (user_message : String) (sess : SessionData) :
    Except Unit (Option String) :=
  match sess.last_parking_search with
  | none => Except.ok none
  | some lps =>
    let spots := lps.spots
    let location := lps.location
    let msg_lower := pyLower user_message
    if followWords.any (fun word => hasSubstr msg_lower word) then
      match spots.head? with
      | none => Except.error ()
      | some top_spot =>
        match pyMin (fun a b => decide (a < b)) cheapKey spots with
        | Except.error e => Except.error e
        | Except.ok cheapest =>
          match pyMin (fun a b => decide (a < b)) walkKey spots with
          | Except.error e => Except.error e
          | Except.ok closest =>
            match dGetE top_spot "name" with
            | Except.error e => Except.error e
            | Except.ok topName =>
              match dGetE cheapest "name" with
              | Except.error e => Except.error e
              | Except.ok cheapName =>
                match dGetE cheapest "pricing" with
                | Except.error e => Except.error e
                | Except.ok cheapPricing =>
                  match valIndexE cheapPricing "hourly_rate" with
                  | Except.error e => Except.error e
                  | Except.ok cheapRate =>
                    match dGetE closest "name" with
                    | Except.error e => Except.error e
                    | Except.ok closeName =>
                      match dGetE closest "walking_time" with
                      | Except.error e => Except.error e
                      | Except.ok closeWalk =>
                        Except.ok (some
                          ("Based on your " ++ location ++
                           " search, here are my top picks:\n\n" ++
                           "**Overall Best:** " ++ fmtVal topName ++ "\n" ++
                           "   Best balance of location, price, and features\n\n" ++
                           "**Cheapest:** " ++ fmtVal cheapName ++ "\n" ++
                           "   Just " ++ fmtVal cheapRate ++ "/hour\n\n" ++
                           "**Closest:** " ++ fmtVal closeName ++ "\n" ++
                           "   Only " ++ fmtVal closeWalk ++ " min walk\n\n" ++
                           "What matters most to you - price, convenience, or security?"))
    else Except.ok none

/-! ## The response composer boundary (`generate_ai_response`) -/

/-- `spot.get(k)` rendered for a format string (all constructed spots carry
the keys this is used with; on a missing key the surrounding Python
`try` would divert to the `except` branch instead). -/
def fmtValD (s : Spot) (k : String) : String :=
  match dictGet s k with
  | some v => fmtVal v
  | none => ""

/-- `', '.join(features[:n])` for a spot's `features` list. -/
def joinFeatures (s : Spot) (n : ℕ) : String :=
  match dictGet s "features" with
  | some (Val.l fs) => String.intercalate ", " ((fs.take n).map fmtVal)
  | _ => ""

/-- The hourly rate rendered in the fallback listing
(`spot['pricing']['hourly_rate']`). -/
def rateStrD (s : Spot) : String :=
  match dictGet s "pricing" with
  | some (Val.d dd) => (match dictGet dd "hourly_rate" with
    | some v => fmtVal v
    | none => "")
  | _ => ""

/-- One numbered entry of the no-`choices` fallback listing (emoji markers
elided). -/
def spotLine (i : ℕ) (s : Spot) : String :=
  "**" ++ toString i ++ ". " ++ fmtValD s "name" ++ "**\n" ++
  fmtValD s "address" ++ "\n" ++
  fmtValD s "walking_time" ++ " min walk - " ++ rateStrD s ++ "/hour\n" ++
  (match dictGet s "features" with
   | some (Val.l (_ :: _)) => joinFeatures s 2 ++ "\n"
   | _ => "") ++ "\n"

/-- The numbered entries for `enumerate(parking_data[:5], 1)`. -/
def listingLines (i : ℕ) : List Spot → String
  | [] => ""
  | s :: t => spotLine i s ++ listingLines (i + 1) t

/-- `generate_ai_response`: the OpenRouter call's outcome decides among the
model's reply, the data-bearing fallback listing, and the two apology
strings; its `try/except` makes it total.  The prompt context it assembles
is sent to the collaborator and does not influence the returned string, so
it is not materialised here. -/
def generate_ai_response (env : Env) (parking_data : List Spot) : String :=
  match env.aiResult with
  | LLMOutcome.ok content => content
  | LLMOutcome.emptyChoices =>
    if parking_data.isEmpty then
      "I\x27m having trouble with my response system, but I\x27m here to help with parking!"
    else
      "I found " ++ toString parking_data.length ++
      " great parking options for you!\n\n" ++ listingLines 1 (parking_data.take 5)
  | LLMOutcome.fail =>
    if parking_data.isEmpty then
      "I\x27m having some technical difficulties right now. Could you try asking again?"
    else
      "I found " ++ toString parking_data.length ++
      " parking options for you! The search worked but I\x27m having response issues. Try asking \x27which is best?\x27 for recommendations."

/-! ## The orchestration (`process_query`) -/

/-- The clarifying-question template of the location-not-found branch. -/
def not_found_response (location : String) : String :=
  "Hmm, I\x27m having trouble finding \x27" ++ location ++
  "\x27. Could you be a bit more specific? Maybe include a street address or a well-known landmark?"

/-- The fixed greeting returned when the open-conversation branch gets no
usable model reply (its `except` path or an empty `choices`). -/
def chat_fallback_response : String :=
  "Hey! I\x27m Parksy, your parking assistant. What can I help you find today?"

/-- The lazy session initialisation of `process_query`
(`if session_id not in self.conversations: … = {'history': [],
'last_parking_search': None}`): the caller's view of the session after it. -/
def initSession (sess : Option SessionData) : SessionData :=
  sess.getD ⟨[], none⟩

/-- Python's truthiness test `if location:` on the extractor's result: a
`None` or an empty captured phrase falls through to open conversation. -/
def locFound (o : Option String) : Option String :=
  match o with
  | some l => if l.isEmpty then none else some l
  | none => none

/-- `process_query` for one session: the session keyed by `session_id` enters
as `sess`, the updated session leaves with the reply.  `.error ()` models an
uncaught exception (only `handle_follow_up_question` can raise).  Branches,
in source order: follow-up; location extracted → geocode failed → template;
geocode ok → search + backfill + store + AI reply; no location → open
conversation, whose fallback returns the greeting WITHOUT appending to
history. -/
def process_query (env : Env) (user_input : String) (sess : Option SessionData) :
    Except Unit (String × SessionData) :=
  let session := initSession sess
  match handle_follow_up_question user_input session with
  | Except.error e => Except.error e
  | Except.ok (some follow_up) =>
    Except.ok (follow_up,
      { session with history := session.history ++ [⟨user_input, follow_up⟩] })
  | Except.ok none =>
    match locFound (env.extract_location user_input) with
    | some location =>
      match env.geocode location with
      | none =>
        let response := not_found_response location
        Except.ok (response,
          { session with history := session.history ++ [⟨user_input, response⟩] })
      | some location_info =>
        let parking_data := search_with_backfill env location_info
        let ai_response := generate_ai_response env parking_data
        Except.ok (ai_response,
          { history := session.history ++ [⟨user_input, ai_response⟩],
            last_parking_search := some ⟨parking_data, location_info.city⟩ })
    | none =>
      match env.chatResult with
      | LLMOutcome.ok ai_response =>
        Except.ok (ai_response,
          { session with history := session.history ++ [⟨user_input, ai_response⟩] })
      | _ => Except.ok (chat_fallback_response, session)

/-! ## Observation helpers for the theorems -/

/-- The spot list stored in the session after a turn (empty when the turn
raised or left no cached search). -/
def storedSpots (r : Except Unit (String × SessionData)) : List Spot :=
  match r with
  | Except.ok (_, out) =>
    match out.last_parking_search with
    | some lps => lps.spots
    | none => []
  | Except.error _ => []

/-- The history of the session after a turn (empty when the turn raised). -/
def turnHistory (r : Except Unit (String × SessionData)) : List HistEntry :=
  match r with
  | Except.ok (_, out) => out.history
  | Except.error _ => []

/-- `true` iff a turn completed without raising. -/
def turnOk (r : Except Unit (String × SessionData)) : Bool :=
  match r with
  | Except.ok _ => true
  | Except.error _ => false

/-- Adjacent-pair check that a spot list is sorted by score descending. -/
def scoresSortedDesc : List Spot → Bool
  | [] => true
  | [_] => true
  | a :: b :: t => (getScore b ≤ getScore a : Bool) && scoresSortedDesc (b :: t)

/-- `true` iff the spot dict carries an `isSynthetic` binding equal to `True`. -/
def hasSyntheticFlag (s : Spot) : Bool :=
  match dictGet s "isSynthetic" with
  | some (Val.b true) => true
  | _ => false

/-! ## Concrete instances used by witnesses and counterexamples -/

/-- A concrete resolved location. -/
def locTest : LocationInfo := ⟨0, 0, "1 Test Way, Testville", "Testville", ""⟩

/-- A raw record whose title carries the keywords `car`/`park` and no
garage/street/ev keyword. -/
def rawCarPark : RawSpot := ⟨some "Test Car Park", some (1, 2), some "High Rd", none⟩

/-- An environment in which every search pass returns nothing. -/
def envEmpty : Env :=
  { calcDist := fun _ _ _ _ => 600
    searchItems := fun _ => []
    catItems := fun _ => []
    geocode := fun _ => some locTest
    extract_location := fun _ => some "Testville"
    hour := 12
    rand := fun _ lo _ => lo
    aiResult := LLMOutcome.ok "ok"
    chatResult := LLMOutcome.ok "ok" }

/-- An environment in which exactly one real record (at 600 m, score 65) is
found by the first text pass. -/
def envOneReal : Env :=
  { envEmpty with searchItems := fun q => if q = "parking" then [rawCarPark] else [] }

/-! ## General lemmas -/

/-- The scoring formula as the specification words it: base 50, plus 25/20/15
by distance band, plus a type bonus, clamped to [0, 100]. -/
def specScore (distance : ℤ) (parking_type : String) : ℤ :=
  let distBonus : ℤ :=
    if distance < 200 then 25
    else if distance < 500 then 20
    else if distance < 1000 then 15
    else 0
  let typeBonus : ℤ :=
    if parking_type = "parking-garage" then 10
    else if parking_type = "ev-charging" then 15
    else 0
  min 100 (max 0 (50 + distBonus + typeBonus))

/-! ## Claim C9 -/

/-- Claim C9: for every distance and parking type, the computed score equals
base 50 plus the distance-band bonus (25 below 200 m, 20 below 500 m, 15
below 1000 m, else 0) plus the type bonus (10 for a garage, 15 for
ev-charging), clamped to lie in [0, 100].  (Proved for every integer
distance, in particular every distance ≥ 0.) -/
theorem claim_C9 (distance : ℤ) (parking_type : String) :
    _calculate_score distance parking_type = specScore distance parking_type
    ∧ 0 ≤ _calculate_score distance parking_type
    ∧ _calculate_score distance parking_type ≤ 100 := by
  simp only [_calculate_score, specScore, min_def, max_def]
  split_ifs <;> omega

/-! ## Claim C6 -/

/-- Claim C6 counterexample: at hour 18 (outside the claimed half-open window
[8,18)) the source still reports daytime availability — `"Limited"` for
on-street parking, not the `"Excellent"` the claim requires for every hour
outside [8,18). -/
theorem claim_C6_counterexample :
    _estimate_availability "on-street-parking" 18 = "Limited"
    ∧ ¬ _estimate_availability "on-street-parking" 18 = "Excellent" := by
  constructor
  · rfl
  · decide

/-- Claim C6 (amended): the daytime window of `_estimate_availability` is the
closed interval [8,18] — `8 <= current_hour <= 18` in the source.  Inside it,
on-street parking is `"Limited"` and every other type `"Good"`; at every hour
strictly outside it, every type is `"Excellent"`. -/
theorem claim_C6_amended (parking_type : String) (h : ℕ) :
    (8 ≤ h ∧ h ≤ 18 →
      _estimate_availability parking_type h =
        (if parking_type = "on-street-parking" then "Limited" else "Good"))
    ∧ (h < 8 ∨ 18 < h → _estimate_availability parking_type h = "Excellent") := by
  constructor
  · intro hh
    unfold _estimate_availability
    rw [if_pos hh]
  · intro hh
    have hn : ¬ (8 ≤ h ∧ h ≤ 18) := by omega
    unfold _estimate_availability
    rw [if_neg hn]

/-- Claim C6 amended, witnessed at hour 10 (inside the window, on-street) and
hour 20 (outside the window, lot). -/
theorem claim_C6_witness :
    _estimate_availability "on-street-parking" 10 = "Limited"
    ∧ _estimate_availability "parking-lot" 20 = "Excellent" := by
  constructor
  · exact ((claim_C6_amended "on-street-parking" 10).1 (by decide)).trans (by decide)
  · exact (claim_C6_amended "parking-lot" 20).2 (by decide)

/-! ## Claim C5 -/

/-- Claim C5: the normalizer rejects a raw record iff it lacks a non-empty
title, or its computed distance from the origin exceeds 3000 m, or its
lowercased title contains none of "park"/"garage"/"car"/"space"/"charging";
a record at 3500 m is always rejected; a record titled "Central Library" is
always rejected; a record titled "Main Street Car Park" at 400 m is accepted
and classified `on-street-parking` by the first-match keyword order. -/
theorem claim_C5 (cd : ℚ → ℚ → ℚ → ℚ → ℤ) (hour : ℕ) (ulat ulng : ℚ) (r : RawSpot) :
    (_process_parking_spot cd hour ulat ulng r = none ↔
      (r.title.getD "" = ""
       ∨ 3000 < rawDist cd ulat ulng r
       ∨ (parkingTerms.any (fun term => hasSubstr (pyLower (r.title.getD "")) term)) = false))
    ∧ (rawDist cd ulat ulng r = 3500 → _process_parking_spot cd hour ulat ulng r = none)
    ∧ (r.title = some "Central Library" → _process_parking_spot cd hour ulat ulng r = none)
    ∧ (r.title = some "Main Street Car Park" → rawDist cd ulat ulng r = 400 →
        ∃ s, _process_parking_spot cd hour ulat ulng r = some s
          ∧ dictGet s "parking_type" = some (Val.s "on-street-parking")
          ∧ dictGet s "name" = some (Val.s "Main Street Car Park")) := by
  have hiff : _process_parking_spot cd hour ulat ulng r = none ↔
      (r.title.getD "" = ""
       ∨ 3000 < rawDist cd ulat ulng r
       ∨ (parkingTerms.any (fun term => hasSubstr (pyLower (r.title.getD "")) term)) = false) := by
    unfold _process_parking_spot
    dsimp only
    by_cases h1 : 3000 < rawDist cd ulat ulng r ∨ r.title.getD "" = ""
    · rw [if_pos h1]
      refine iff_of_true rfl ?_
      rcases h1 with h | h
      · exact Or.inr (Or.inl h)
      · exact Or.inl h
    · rw [if_neg h1]
      push_neg at h1
      by_cases h2 : (parkingTerms.any fun term => hasSubstr (pyLower (r.title.getD "")) term) = true
      · rw [if_neg (not_not_intro h2)]
        refine iff_of_false (by simp) ?_
        rintro (h | h | h)
        · exact h1.2 h
        · exact absurd h h1.1.not_lt
        · simp [h] at h2
      · rw [if_pos h2]
        exact iff_of_true rfl (Or.inr (Or.inr (Bool.eq_false_iff.mpr h2)))
  refine ⟨hiff, ?_, ?_, ?_⟩
  · intro hd
    exact hiff.mpr (Or.inr (Or.inl (by rw [hd]; decide)))
  · intro ht
    refine hiff.mpr (Or.inr (Or.inr ?_))
    rw [ht]
    decide
  · intro ht hd
    unfold _process_parking_spot
    rw [ht, hd]
    exact ⟨_, rfl, rfl, rfl⟩

/-- Claim C5, witnessed: "Central Library" at 100 m is rejected; "Main Street
Car Park" at 400 m is accepted as on-street parking. -/
theorem claim_C5_witness :
    _process_parking_spot (fun _ _ _ _ => 100) 12 0 0 ⟨some "Central Library", some (1, 1), none, none⟩ = none
    ∧ (∃ s, _process_parking_spot (fun _ _ _ _ => 400) 12 0 0 ⟨some "Main Street Car Park", some (1, 1), none, none⟩ = some s
        ∧ dictGet s "parking_type" = some (Val.s "on-street-parking")
        ∧ dictGet s "name" = some (Val.s "Main Street Car Park")) :=
  ⟨(claim_C5 (fun _ _ _ _ => 100) 12 0 0 ⟨some "Central Library", some (1, 1), none, none⟩).2.2.1 rfl,
   (claim_C5 (fun _ _ _ _ => 400) 12 0 0 ⟨some "Main Street Car Park", some (1, 1), none, none⟩).2.2.2 rfl rfl⟩

/-! ## Dedup machinery for claim C7 -/

/-- The pairwise "distinct dedup keys" relation. -/
def KeysNe (a b : Spot) : Prop := dupKey a ≠ dupKey b

/-- `KeysNe` is symmetric. -/
theorem keysNe_symm : ∀ {a b : Spot}, KeysNe a b → KeysNe b a :=
  fun h => fun he => h he.symm

/-- `_is_duplicate s acc = false` means every accepted spot has a key
different from `s`'s. -/
theorem not_duplicate_iff (s : Spot) (acc : List Spot) :
    _is_duplicate s acc = false ↔ ∀ t ∈ acc, dupKey t ≠ dupKey s := by
  unfold _is_duplicate
  rw [List.any_eq_false]
  constructor
  · intro h t ht
    simpa using h t ht
  · intro h t ht
    simpa using h t ht

/-- One `addRaw` step preserves pairwise-distinct keys. -/
theorem addRaw_pairwise (cd : ℚ → ℚ → ℚ → ℚ → ℤ) (hour : ℕ) (ulat ulng : ℚ)
    (acc : List Spot) (raw : RawSpot) (h : acc.Pairwise KeysNe) :
    (addRaw cd hour ulat ulng acc raw).Pairwise KeysNe := by
  unfold addRaw
  cases hp : _process_parking_spot cd hour ulat ulng raw with
  | none => exact h
  | some s =>
    dsimp only
    by_cases hd : _is_duplicate s acc = true
    · rw [if_pos hd]
      exact h
    · rw [if_neg hd]
      rw [List.pairwise_append]
      refine ⟨h, List.pairwise_singleton _ _, ?_⟩
      intro a ha b hb
      rw [List.mem_singleton] at hb
      subst hb
      exact (not_duplicate_iff b acc).mp (Bool.eq_false_iff.mpr hd) a ha

/-- A whole pass preserves pairwise-distinct keys. -/
theorem addPass_pairwise (cd : ℚ → ℚ → ℚ → ℚ → ℤ) (hour : ℕ) (ulat ulng : ℚ)
    (raws : List RawSpot) :
    ∀ acc : List Spot, acc.Pairwise KeysNe →
      (addPass cd hour ulat ulng acc raws).Pairwise KeysNe := by
  induction raws with
  | nil => intro acc h; exact h
  | cons r t ih =>
    intro acc h
    exact ih (addRaw cd hour ulat ulng acc r) (addRaw_pairwise cd hour ulat ulng acc r h)

/-- Folding passes over any list of query keys preserves pairwise-distinct
keys. -/
theorem foldl_passes_pairwise (cd : ℚ → ℚ → ℚ → ℚ → ℤ) (hour : ℕ) (ulat ulng : ℚ)
    (items : String → List RawSpot) (qs : List String) :
    ∀ acc : List Spot, acc.Pairwise KeysNe →
      (qs.foldl (fun a q => addPass cd hour ulat ulng a (items q)) acc).Pairwise KeysNe := by
  induction qs with
  | nil => intro acc h; exact h
  | cons q t ih =>
    intro acc h
    exact ih _ (addPass_pairwise cd hour ulat ulng (items q) acc h)

/-- The accumulated `all_spots` list has pairwise-distinct dedup keys. -/
theorem all_spots_acc_pairwise (env : Env) (lat lng : ℚ) :
    (all_spots_acc env lat lng).Pairwise KeysNe := by
  have hbase : (all_spots_text env lat lng).Pairwise KeysNe :=
    foldl_passes_pairwise env.calcDist env.hour lat lng env.searchItems search_queries []
      List.Pairwise.nil
  unfold all_spots_acc
  dsimp only
  split_ifs with h
  · exact foldl_passes_pairwise env.calcDist env.hour lat lng env.catItems category_ids
      (all_spots_text env lat lng) hbase
  · exact hbase

/-! ## Claim C7 -/

/-- Claim C7: (i) the accumulated list of one aggregation run never holds two
spots with the same 4-decimal coordinate key, and neither does the sorted,
truncated result; (ii) two valid records with different keys both survive (in
discovery order); (iii) of two valid records with the same key, only the
first-seen spot is kept, unchanged — the later one is dropped silently with
no merging. -/
theorem claim_C7 (env : Env) (lat lng : ℚ) :
    (all_spots_acc env lat lng).Pairwise KeysNe
    ∧ (search_parking env lat lng).Pairwise KeysNe
    ∧ (∀ (cd : ℚ → ℚ → ℚ → ℚ → ℤ) (hour : ℕ) (ulat ulng : ℚ) (r1 r2 : RawSpot) (s1 s2 : Spot),
        _process_parking_spot cd hour ulat ulng r1 = some s1 →
        _process_parking_spot cd hour ulat ulng r2 = some s2 →
        dupKey s1 ≠ dupKey s2 →
        addPass cd hour ulat ulng [] [r1, r2] = [s1, s2])
    ∧ (∀ (cd : ℚ → ℚ → ℚ → ℚ → ℤ) (hour : ℕ) (ulat ulng : ℚ) (r1 r2 : RawSpot) (s1 s2 : Spot),
        _process_parking_spot cd hour ulat ulng r1 = some s1 →
        _process_parking_spot cd hour ulat ulng r2 = some s2 →
        dupKey s1 = dupKey s2 →
        addPass cd hour ulat ulng [] [r1, r2] = [s1]) := by
  refine ⟨all_spots_acc_pairwise env lat lng, ?_, ?_, ?_⟩
  · have hp := all_spots_acc_pairwise env lat lng
    have hperm : List.Perm ((all_spots_acc env lat lng).insertionSort scoreGe)
        (all_spots_acc env lat lng) :=
      List.perm_insertionSort _ _
    have hsorted : ((all_spots_acc env lat lng).insertionSort scoreGe).Pairwise KeysNe :=
      (List.Perm.pairwise_iff (fun h => keysNe_symm h) hperm).mpr hp
    exact List.Pairwise.sublist (List.take_sublist 10 _) hsorted
  · intro cd hour ulat ulng r1 r2 s1 s2 h1 h2 hne
    have hb : (dupKey s1 == dupKey s2) = false := by
      simpa using hne
    simp [addPass, addRaw, h1, h2, _is_duplicate, hb]
  · intro cd hour ulat ulng r1 r2 s1 s2 h1 h2 heq
    have hb : (dupKey s1 == dupKey s2) = true := by
      simpa using heq
    simp [addPass, addRaw, h1, h2, _is_duplicate, hb]

/-- Concrete raw records for the C7 witness: two distinct keys, then a key
collision. -/
def rawW1 : RawSpot := ⟨some "Alpha Car Park", some (1, 1), none, none⟩

/-- Second record, different key. -/
def rawW2 : RawSpot := ⟨some "Beta Car Park", some (2, 1), none, none⟩

/-- Third record, same key as `rawW1` but different attributes. -/
def rawW3 : RawSpot := ⟨some "Gamma Car Park", some (1, 1), none, none⟩

/-- Constant distance oracle for the C7 witness. -/
def cdW : ℚ → ℚ → ℚ → ℚ → ℤ := fun _ _ _ _ => 100

/-- Claim C7, witnessed: two valid records with distinct keys both survive in
order; with a key collision only the first survives, unchanged. -/
theorem claim_C7_witness :
    addPass cdW 12 0 0 [] [rawW1, rawW2] =
      [(_process_parking_spot cdW 12 0 0 rawW1).getD [],
       (_process_parking_spot cdW 12 0 0 rawW2).getD []]
    ∧ addPass cdW 12 0 0 [] [rawW1, rawW3] =
      [(_process_parking_spot cdW 12 0 0 rawW1).getD []] :=
  ⟨(claim_C7 envEmpty 0 0).2.2.1 cdW 12 0 0 rawW1 rawW2 _ _ rfl rfl (by decide),
   (claim_C7 envEmpty 0 0).2.2.2 cdW 12 0 0 rawW1 rawW3 _ _ rfl rfl (by decide)⟩

/-! ## Spot-shape invariants (for claims C1, C2, C10) -/

/-- The invariant every spot stored in a session satisfies: a string `name`,
an integer `walking_time`, and a `pricing` dict whose `hourly_rate` is a
string that parses as a decimal once the currency marker is stripped. -/
def spotInv (s : Spot) : Prop :=
  (∃ t, dictGet s "name" = some (Val.s t))
  ∧ (∃ n, dictGet s "walking_time" = some (Val.i n))
  ∧ (∃ dd, dictGet s "pricing" = some (Val.d dd)
      ∧ ∃ rs, dictGet dd "hourly_rate" = some (Val.s rs)
        ∧ (parseFloatQ (pyReplace rs "¬£" "")).isSome = true)

/-- Every estimated pricing dict has a parsable hourly rate string. -/
theorem pricing_rate_parses (pt : String) (dist : ℤ) :
    ∃ rs, dictGet (_estimate_pricing pt dist) "hourly_rate" = some (Val.s rs)
      ∧ (parseFloatQ (pyReplace rs "¬£" "")).isSome = true := by
  unfold _estimate_pricing
  dsimp only
  split_ifs <;> exact ⟨_, rfl, by decide⟩

/-- Every spot the normalizer accepts satisfies the invariant and carries a
`position` dict (the raw record's position) — unlike the synthetic spots. -/
theorem processed_spot_inv (cd : ℚ → ℚ → ℚ → ℚ → ℤ) (hour : ℕ) (ulat ulng : ℚ)
    (r : RawSpot) (s : Spot) (h : _process_parking_spot cd hour ulat ulng r = some s) :
    spotInv s ∧ (∃ p, dictGet s "position" = some (Val.d p)) := by
  unfold _process_parking_spot at h
  dsimp only at h
  split_ifs at h
  all_goals obtain rfl := Option.some.inj h
  all_goals refine ⟨⟨⟨_, rfl⟩, ⟨_, rfl⟩, ⟨_, rfl, ?_⟩⟩, ?_⟩
  all_goals try exact pricing_rate_parses _ _
  all_goals unfold rawPosVal
  all_goals cases r.position with
    | none => exact ⟨_, rfl⟩
    | some pq => exact ⟨_, rfl⟩

/-- `addRaw` preserves any property that holds of all normalizer outputs. -/
theorem addRaw_preserve (cd : ℚ → ℚ → ℚ → ℚ → ℤ) (hour : ℕ) (ulat ulng : ℚ)
    (P : Spot → Prop)
    (hP : ∀ r s, _process_parking_spot cd hour ulat ulng r = some s → P s)
    (acc : List Spot) (raw : RawSpot) (hacc : ∀ s ∈ acc, P s) :
    ∀ s ∈ addRaw cd hour ulat ulng acc raw, P s := by
  unfold addRaw
  cases hp : _process_parking_spot cd hour ulat ulng raw with
  | none => exact hacc
  | some s0 =>
    dsimp only
    by_cases hd : _is_duplicate s0 acc = true
    · rw [if_pos hd]
      exact hacc
    · rw [if_neg hd]
      intro s hs
      rcases List.mem_append.mp hs with h | h
      · exact hacc s h
      · rw [List.mem_singleton] at h
        subst h
        exact hP raw s hp

/-- `addPass` preserves any property of all normalizer outputs. -/
theorem addPass_preserve (cd : ℚ → ℚ → ℚ → ℚ → ℤ) (hour : ℕ) (ulat ulng : ℚ)
    (P : Spot → Prop)
    (hP : ∀ r s, _process_parking_spot cd hour ulat ulng r = some s → P s)
    (raws : List RawSpot) :
    ∀ acc : List Spot, (∀ s ∈ acc, P s) →
      ∀ s ∈ addPass cd hour ulat ulng acc raws, P s := by
  induction raws with
  | nil => intro acc h; exact h
  | cons r t ih =>
    intro acc h
    exact ih _ (addRaw_preserve cd hour ulat ulng P hP acc r h)

/-- Folding passes preserves any property of all normalizer outputs. -/
theorem foldl_passes_preserve (cd : ℚ → ℚ → ℚ → ℚ → ℤ) (hour : ℕ) (ulat ulng : ℚ)
    (P : Spot → Prop)
    (hP : ∀ r s, _process_parking_spot cd hour ulat ulng r = some s → P s)
    (items : String → List RawSpot) (qs : List String) :
    ∀ acc : List Spot, (∀ s ∈ acc, P s) →
      ∀ s ∈ qs.foldl (fun a q => addPass cd hour ulat ulng a (items q)) acc, P s := by
  induction qs with
  | nil => intro acc h; exact h
  | cons q t ih =>
    intro acc h
    exact ih _ (addPass_preserve cd hour ulat ulng P hP (items q) acc h)

/-- Every spot `search_parking` returns is a normalizer output, so it
satisfies any property all normalizer outputs do. -/
theorem search_parking_preserve (env : Env) (lat lng : ℚ) (P : Spot → Prop)
    (hP : ∀ r s, _process_parking_spot env.calcDist env.hour lat lng r = some s → P s) :
    ∀ s ∈ search_parking env lat lng, P s := by
  have hacc : ∀ s ∈ all_spots_acc env lat lng, P s := by
    have hbase : ∀ s ∈ all_spots_text env lat lng, P s :=
      foldl_passes_preserve env.calcDist env.hour lat lng P hP env.searchItems
        search_queries [] (by intro s hs; cases hs)
    unfold all_spots_acc
    dsimp only
    split_ifs with h
    · exact foldl_passes_preserve env.calcDist env.hour lat lng P hP env.catItems
        category_ids (all_spots_text env lat lng) hbase
    · exact hbase
  intro s hs
  unfold search_parking at hs
  have hs2 := List.mem_of_mem_take hs
  rw [List.mem_insertionSort] at hs2
  exact hacc s hs2

/-- Every synthetic spot satisfies the invariant, and carries neither an
`isSynthetic` binding nor a `position` (nor `contacts`) binding. -/
theorem mock_inv (env : Env) (li : LocationInfo) :
    ∀ m ∈ generate_mock_data env li,
      spotInv m ∧ dictGet m "isSynthetic" = none ∧ dictGet m "position" = none := by
  intro m hm
  unfold generate_mock_data at hm
  simp only [List.mem_cons, List.not_mem_nil, or_false] at hm
  rcases hm with rfl | rfl | rfl | rfl
  all_goals exact ⟨⟨⟨_, rfl⟩, ⟨_, rfl⟩, ⟨_, rfl, _, rfl, by decide⟩⟩, rfl, rfl⟩

/-- There are always exactly 4 synthetic spots. -/
theorem mock_length (env : Env) (li : LocationInfo) :
    (generate_mock_data env li).length = 4 := rfl

/-- `search_parking` returns at most 10 spots. -/
theorem search_parking_len (env : Env) (lat lng : ℚ) :
    (search_parking env lat lng).length ≤ 10 := by
  unfold search_parking
  rw [List.length_take]
  exact min_le_left _ _

/-- When the backfill triggers, the stored list is exactly the real list
followed by the four synthetic spots (the re-truncation to 10 is a no-op,
because at most 4 real spots plus 4 synthetic ones are present). -/
theorem backfill_append (env : Env) (li : LocationInfo)
    (h : (search_parking env li.lat li.lng).length < 5) :
    search_with_backfill env li =
      search_parking env li.lat li.lng ++ generate_mock_data env li := by
  unfold search_with_backfill
  dsimp only
  rw [if_pos h]
  apply List.take_of_length_le
  rw [List.length_append, mock_length]
  omega

/-- When 5 or more real spots exist, the stored list is the real list alone. -/
theorem backfill_skip (env : Env) (li : LocationInfo)
    (h : ¬ (search_parking env li.lat li.lng).length < 5) :
    search_with_backfill env li = search_parking env li.lat li.lng := by
  unfold search_with_backfill
  dsimp only
  rw [if_neg h]

/-- The stored list always has between 4 and 10 spots. -/
theorem backfill_len (env : Env) (li : LocationInfo) :
    4 ≤ (search_with_backfill env li).length
    ∧ (search_with_backfill env li).length ≤ 10 := by
  by_cases h : (search_parking env li.lat li.lng).length < 5
  · rw [backfill_append env li h, List.length_append, mock_length]
    have := search_parking_len env li.lat li.lng
    omega
  · rw [backfill_skip env li h]
    have := search_parking_len env li.lat li.lng
    omega

/-- Every spot stored by a search turn satisfies the invariant. -/
theorem backfill_inv (env : Env) (li : LocationInfo) :
    ∀ s ∈ search_with_backfill env li, spotInv s := by
  have hreal : ∀ s ∈ search_parking env li.lat li.lng, spotInv s :=
    search_parking_preserve env li.lat li.lng spotInv
      (fun r s h => (processed_spot_inv env.calcDist env.hour li.lat li.lng r s h).1)
  by_cases h : (search_parking env li.lat li.lng).length < 5
  · rw [backfill_append env li h]
    intro s hs
    rcases List.mem_append.mp hs with hm | hm
    · exact hreal s hm
    · exact (mock_inv env li s hm).1
  · rw [backfill_skip env li h]
    exact hreal

/-! ## Claim C1 -/

/-- The real (aggregated) list is sorted by score descending. -/
theorem search_parking_sorted (env : Env) (lat lng : ℚ) :
    (search_parking env lat lng).Pairwise scoreGe := by
  unfold search_parking
  exact List.Pairwise.sublist (List.take_sublist 10 _) (List.sorted_insertionSort scoreGe _)

/-- Claim C1 counterexample: with one real spot of score 65 and empty
remaining passes, the list stored in the session (and handed to the Response
Composer) is [65, 85, 70, 75, 72] — not sorted by score descending, and the
synthetic score-85 entry sits AFTER the real score-65 entry. -/
theorem claim_C1_counterexample :
    scoresSortedDesc (storedSpots (process_query envOneReal "parking near X" none)) = false
    ∧ (storedSpots (process_query envOneReal "parking near X" none)).map getScore
        = [65, 85, 70, 75, 72] := by
  constructor
  · decide
  · decide

/-- Claim C1 (amended): the aggregated REAL result list is sorted by score
descending, stable for ties (any two tied spots keep their discovery order
through the sort); but when the synthetic backfill triggers, the synthetic
spots are appended after all real spots in fixed generation order and the
combined stored list is NOT re-sorted (and with 5 or more real spots no
synthetic entry is appended at all). -/
theorem claim_C1_amended (env : Env) (li : LocationInfo) :
    (search_parking env li.lat li.lng).Pairwise scoreGe
    ∧ (∀ a b : Spot, getScore a = getScore b →
        List.Sublist [a, b] (all_spots_acc env li.lat li.lng) →
        List.Sublist [a, b] ((all_spots_acc env li.lat li.lng).insertionSort scoreGe))
    ∧ ((search_parking env li.lat li.lng).length < 5 →
        search_with_backfill env li =
          search_parking env li.lat li.lng ++ generate_mock_data env li)
    ∧ (5 ≤ (search_parking env li.lat li.lng).length →
        search_with_backfill env li = search_parking env li.lat li.lng) := by
  refine ⟨search_parking_sorted env li.lat li.lng, ?_, ?_, ?_⟩
  · intro a b hab hsub
    exact List.pair_sublist_insertionSort (le_of_eq hab.symm) hsub
  · exact backfill_append env li
  · intro h
    exact backfill_skip env li (by omega)

/-- Claim C1 amended, witnessed: with one real score-65 spot the backfill
triggers and the stored list is the sorted real list with the four synthetic
spots appended, unsorted. -/
theorem claim_C1_witness :
    (search_parking envOneReal locTest.lat locTest.lng).length < 5
    ∧ search_with_backfill envOneReal locTest =
        search_parking envOneReal locTest.lat locTest.lng ++ generate_mock_data envOneReal locTest :=
  ⟨by decide, (claim_C1_amended envOneReal locTest).2.2.1 (by decide)⟩

/-! ## Claim C2 -/

/-- Claim C2 counterexample: with zero real results the backfill triggers and
the stored list holds 4 entries, NONE of which carries `isSynthetic=true` —
the source attaches no `isSynthetic` key at all. -/
theorem claim_C2_counterexample :
    (search_parking envEmpty locTest.lat locTest.lng).length = 0
    ∧ (storedSpots (process_query envEmpty "parking near X" none)).length = 4
    ∧ (storedSpots (process_query envEmpty "parking near X" none)).all
        (fun s => !(hasSyntheticFlag s)) = true := by
  refine ⟨?_, ?_, ?_⟩ <;> decide

/-- Claim C2 (amended): if fewer than 5 real candidates exist the final list
contains the 4 synthetic (mock-generated) entries, appended after the real
ones; if 5 or more exist, no synthetic entry is appended.  But the synthetic
entries carry NO `isSynthetic` field; they are distinguishable from real
entries only structurally — every real entry has a `position` binding and
every synthetic entry has none. -/
theorem claim_C2_amended (env : Env) (li : LocationInfo) :
    ((search_parking env li.lat li.lng).length < 5 →
      search_with_backfill env li =
        search_parking env li.lat li.lng ++ generate_mock_data env li
      ∧ (generate_mock_data env li).length = 4
      ∧ (generate_mock_data env li).all
          (fun m => (dictGet m "isSynthetic").isNone && (dictGet m "position").isNone) = true)
    ∧ (5 ≤ (search_parking env li.lat li.lng).length →
        search_with_backfill env li = search_parking env li.lat li.lng)
    ∧ (∀ s ∈ search_parking env li.lat li.lng, (dictGet s "position").isSome = true) := by
  refine ⟨?_, ?_, ?_⟩
  · intro h
    refine ⟨backfill_append env li h, mock_length env li, ?_⟩
    rw [List.all_eq_true]
    intro m hm
    obtain ⟨-, h1, h2⟩ := mock_inv env li m hm
    rw [h1, h2]
    rfl
  · intro h
    exact backfill_skip env li (by omega)
  · refine search_parking_preserve env li.lat li.lng _ ?_
    intro r s h
    obtain ⟨p, hp⟩ := (processed_spot_inv env.calcDist env.hour li.lat li.lng r s h).2
    rw [hp]
    rfl

/-- Claim C2 amended, witnessed at the zero-real-results environment. -/
theorem claim_C2_witness :
    search_with_backfill envEmpty locTest =
      search_parking envEmpty locTest.lat locTest.lng ++ generate_mock_data envEmpty locTest
    ∧ (generate_mock_data envEmpty locTest).length = 4
    ∧ (generate_mock_data envEmpty locTest).all
        (fun m => (dictGet m "isSynthetic").isNone && (dictGet m "position").isNone) = true :=
  (claim_C2_amended envEmpty locTest).1 (by decide)

/-! ## Follow-up resolver totality (claim C10) -/

/-- Under the invariant, the cheapest-spot key never raises. -/
theorem cheapKey_ok (s : Spot) (h : spotInv s) : isOkE (cheapKey s) = true := by
  obtain ⟨-, -, dd, hdd, rs, hrs, hparse⟩ := h
  obtain ⟨q, hq⟩ := Option.isSome_iff_exists.mp hparse
  simp [cheapKey, hdd, hrs, hq, isOkE]

/-- Under the invariant, the closest-spot key never raises. -/
theorem walkKey_ok (s : Spot) (h : spotInv s) : isOkE (walkKey s) = true := by
  obtain ⟨-, ⟨n, hn⟩, -⟩ := h
  simp [walkKey, hn, isOkE]

/-- `pyMinGo` with non-raising keys returns an element satisfying any
property that the seed and all list elements satisfy. -/
theorem pyMinGo_ok {κ : Type} (ltb : κ → κ → Bool) (key : Spot → Except Unit κ)
    (P : Spot → Prop) :
    ∀ (l : List Spot) (best : Spot) (bk : κ), P best → (∀ x ∈ l, P x) →
      (∀ x ∈ l, isOkE (key x) = true) →
      ∃ y, pyMinGo ltb key best bk l = Except.ok y ∧ P y := by
  intro l
  induction l with
  | nil => intro best bk hb _ _; exact ⟨best, rfl, hb⟩
  | cons x xs ih =>
    intro best bk hb hl hk
    have hx : isOkE (key x) = true := hk x (List.mem_cons_self x xs)
    cases hkx : key x with
    | error e => rw [hkx] at hx; simp [isOkE] at hx
    | ok kx =>
      unfold pyMinGo
      rw [hkx]
      dsimp only
      by_cases hlt : ltb kx bk = true
      · rw [if_pos hlt]
        exact ih x kx (hl x (List.mem_cons_self x xs))
          (fun z hz => hl z (List.mem_cons_of_mem _ hz))
          (fun z hz => hk z (List.mem_cons_of_mem _ hz))
      · rw [if_neg hlt]
        exact ih best bk hb
          (fun z hz => hl z (List.mem_cons_of_mem _ hz))
          (fun z hz => hk z (List.mem_cons_of_mem _ hz))

/-- Python `min` with non-raising keys over a non-empty list returns an
element of the list (so any property of all elements holds of it). -/
theorem pyMin_ok {κ : Type} (ltb : κ → κ → Bool) (key : Spot → Except Unit κ)
    (P : Spot → Prop) (l : List Spot) (hne : l ≠ [])
    (hl : ∀ x ∈ l, P x) (hk : ∀ x ∈ l, isOkE (key x) = true) :
    ∃ y, pyMin ltb key l = Except.ok y ∧ P y := by
  cases l with
  | nil => exact absurd rfl hne
  | cons x xs =>
    have hx : isOkE (key x) = true := hk x (List.mem_cons_self x xs)
    cases hkx : key x with
    | error e => rw [hkx] at hx; simp [isOkE] at hx
    | ok kx =>
      unfold pyMin
      dsimp only
      rw [hkx]
      exact pyMinGo_ok ltb key P xs x kx (hl x (List.mem_cons_self x xs))
        (fun z hz => hl z (List.mem_cons_of_mem _ hz))
        (fun z hz => hk z (List.mem_cons_of_mem _ hz))

/-- With a non-empty cached spot list all of whose entries satisfy the
invariant, the follow-up resolver never raises. -/
theorem follow_up_total (msg : String) (hist : List HistEntry) (loc : String)
    (spots : List Spot) (hne : spots ≠ []) (hinv : ∀ s ∈ spots, spotInv s) :
    isOkE (handle_follow_up_question msg ⟨hist, some ⟨spots, loc⟩⟩) = true := by
  unfold handle_follow_up_question
  dsimp only
  by_cases hkw : (followWords.any fun word => hasSubstr (pyLower msg) word) = true
  · rw [if_pos hkw]
    cases spots with
    | nil => exact absurd rfl hne
    | cons top rest =>
      obtain ⟨cheapest, hch, hchP⟩ :=
        pyMin_ok (fun a b => decide (a < b)) cheapKey spotInv (top :: rest) (by simp)
          hinv (fun x hx => cheapKey_ok x (hinv x hx))
      obtain ⟨closest, hcl, hclP⟩ :=
        pyMin_ok (fun a b => decide (a < b)) walkKey spotInv (top :: rest) (by simp)
          hinv (fun x hx => walkKey_ok x (hinv x hx))
      obtain ⟨⟨tn, htn⟩, -, -⟩ := hinv top (List.mem_cons_self top rest)
      obtain ⟨⟨cn, hcn⟩, -, dd, hdd, rs2, hrs2, -⟩ := hchP
      obtain ⟨⟨qn, hqn⟩, ⟨wn, hwn⟩, -⟩ := hclP
      simp [List.head?, hch, hcl, dGetE, valIndexE, htn, hcn, hdd, hrs2, hqn, hwn, isOkE]
  · rw [if_neg hkw]
    rfl

/-! ## Claim C10 -/

/-- Claim C10: whatever the environment, the list a search turn stores is
non-empty (indeed it has at least 4 entries, thanks to the 4-spot synthetic
backfill below 5 real results), every stored spot has a string name, an
integer `walking_time`, and an hourly-rate string that parses as a decimal
once the currency marker is stripped; consequently the follow-up resolver's
first-element access and its cheapest/closest minimum computations are
always defined and never raise. -/
theorem claim_C10 (env : Env) (li : LocationInfo) (input : String)
    (hist : List HistEntry) (loc : String) :
    search_with_backfill env li ≠ []
    ∧ 4 ≤ (search_with_backfill env li).length
    ∧ (∀ s ∈ search_with_backfill env li, spotInv s)
    ∧ isOkE (handle_follow_up_question input
        ⟨hist, some ⟨search_with_backfill env li, loc⟩⟩) = true := by
  have hlen := (backfill_len env li).1
  have hne : search_with_backfill env li ≠ [] := by
    intro h
    rw [h] at hlen
    simp at hlen
  exact ⟨hne, hlen, backfill_inv env li,
    follow_up_total input hist loc _ hne (backfill_inv env li)⟩

/-- Claim C10, witnessed at the zero-real-results environment with a "which
is best" follow-up. -/
theorem claim_C10_witness :
    search_with_backfill envEmpty locTest ≠ []
    ∧ 4 ≤ (search_with_backfill envEmpty locTest).length
    ∧ isOkE (handle_follow_up_question "which is best"
        ⟨[], some ⟨search_with_backfill envEmpty locTest, "Testville"⟩⟩) = true :=
  ⟨(claim_C10 envEmpty locTest "which is best" [] "Testville").1,
   (claim_C10 envEmpty locTest "which is best" [] "Testville").2.1,
   (claim_C10 envEmpty locTest "which is best" [] "Testville").2.2.2⟩

/-! ## Claim C8 -/

/-- Claim C8: on any turn that is not a follow-up, whose extracted location
the geocoder fails to resolve, the turn completes without raising, returns
the clarifying-question template naming the unresolved phrase, appends
exactly that turn to the history, and leaves `last_parking_search`
unchanged.  The search and LLM oracles of `env` are arbitrary and absent
from the result, so no search is performed and the reply does not depend on
them. -/
theorem claim_C8 (env : Env) (input : String) (sess : Option SessionData) (loc : String)
    (hfu : handle_follow_up_question input (initSession sess) = Except.ok none)
    (hloc : locFound (env.extract_location input) = some loc)
    (hgeo : env.geocode loc = none) :
    process_query env input sess =
      Except.ok (not_found_response loc,
        { initSession sess with
            history := (initSession sess).history ++ [⟨input, not_found_response loc⟩] }) := by
  unfold process_query
  dsimp only
  rw [hfu]
  dsimp only
  rw [hloc]
  dsimp only
  rw [hgeo]

/-- Environment whose geocoder resolves nothing. -/
def envNF : Env := { envEmpty with geocode := fun _ => none }

/-- Claim C8, witnessed: a fresh session, location "Testville" extracted,
geocoder finds nothing — the template is returned, the turn is recorded,
`last_parking_search` stays unset. -/
theorem claim_C8_witness :
    process_query envNF "parking near X" none =
      Except.ok (not_found_response "Testville",
        { history := [⟨"parking near X", not_found_response "Testville"⟩],
          last_parking_search := none }) :=
  claim_C8 envNF "parking near X" none "Testville" rfl rfl rfl

/-! ## The shape of a completed turn (claims C3 and C4) -/

/-- Every completed (non-raising) turn either appends exactly the pair
`{userText, assistantText}` to the history — leaving the cached search
unchanged except on the search path, which overwrites it with the
backfilled list — or is the open-conversation fallback, which returns the
fixed greeting and leaves the whole session untouched. -/
theorem process_query_shape (env : Env) (input : String) (sess : Option SessionData)
    (resp : String) (out : SessionData)
    (h : process_query env input sess = Except.ok (resp, out)) :
    (out.history = (initSession sess).history ++ [⟨input, resp⟩]
      ∧ (out.last_parking_search = (initSession sess).last_parking_search
         ∨ ∃ li : LocationInfo,
             out.last_parking_search = some ⟨search_with_backfill env li, li.city⟩))
    ∨ (locFound (env.extract_location input) = none
       ∧ env.chatResult.content? = none
       ∧ resp = chat_fallback_response
       ∧ out = initSession sess) := by
  unfold process_query at h
  dsimp only at h
  cases hfu : handle_follow_up_question input (initSession sess) with
  | error e => rw [hfu] at h; exact Except.noConfusion h
  | ok fuo =>
    rw [hfu] at h
    cases fuo with
    | some fu =>
      dsimp only at h
      injection h with h'
      injection h' with hr ho
      subst hr
      subst ho
      exact Or.inl ⟨rfl, Or.inl rfl⟩
    | none =>
      dsimp only at h
      cases hloc : locFound (env.extract_location input) with
      | some loc =>
        rw [hloc] at h
        dsimp only at h
        cases hgeo : env.geocode loc with
        | none =>
          rw [hgeo] at h
          dsimp only at h
          injection h with h'
          injection h' with hr ho
          subst hr
          subst ho
          exact Or.inl ⟨rfl, Or.inl rfl⟩
        | some li =>
          rw [hgeo] at h
          dsimp only at h
          injection h with h'
          injection h' with hr ho
          subst hr
          subst ho
          exact Or.inl ⟨rfl, Or.inr ⟨li, rfl⟩⟩
      | none =>
        rw [hloc] at h
        dsimp only at h
        cases hcr : env.chatResult with
        | ok c =>
          rw [hcr] at h
          dsimp only at h
          injection h with h'
          injection h' with hr ho
          subst hr
          subst ho
          exact Or.inl ⟨rfl, Or.inl rfl⟩
        | emptyChoices =>
          rw [hcr] at h
          dsimp only at h
          injection h with h'
          injection h' with hr ho
          subst hr
          subst ho
          exact Or.inr ⟨rfl, rfl, rfl, rfl⟩
        | fail =>
          rw [hcr] at h
          dsimp only at h
          injection h with h'
          injection h' with hr ho
          subst hr
          subst ho
          exact Or.inr ⟨rfl, rfl, rfl, rfl⟩

/-! ## Claim C4 -/

/-- Environment with no extractable location and a failing chat call. -/
def envChatFail : Env :=
  { envEmpty with extract_location := fun _ => none, chatResult := LLMOutcome.fail }

/-- Claim C4 counterexample: when no location is extracted and the
open-conversation model call fails, the turn completes (returns the fixed
greeting) but appends NOTHING to the session history — zero pairs, not
exactly one. -/
theorem claim_C4_counterexample :
    turnOk (process_query envChatFail "hello" none) = true
    ∧ (turnHistory (process_query envChatFail "hello" none)).length = 0 :=
  ⟨rfl, rfl⟩

/-- Claim C4 (amended): every completed turn appends exactly one
`{userText, assistantText}` pair to the history, EXCEPT the
open-conversation fallback (no location extracted and no usable model
reply), which returns the fixed greeting and appends nothing. -/
theorem claim_C4_amended (env : Env) (input : String) (sess : Option SessionData)
    (resp : String) (out : SessionData)
    (h : process_query env input sess = Except.ok (resp, out)) :
    out.history = (initSession sess).history ++ [⟨input, resp⟩]
    ∨ (locFound (env.extract_location input) = none
       ∧ env.chatResult.content? = none
       ∧ resp = chat_fallback_response
       ∧ out.history = (initSession sess).history) := by
  rcases process_query_shape env input sess resp out h with ⟨h1, -⟩ | ⟨h1, h2, h3, h4⟩
  · exact Or.inl h1
  · exact Or.inr ⟨h1, h2, h3, by rw [h4]⟩

/-- Claim C4 amended, witnessed on the location-not-found path: exactly one
pair is appended. -/
theorem claim_C4_witness :
    ({ history := [⟨"parking near X", not_found_response "Testville"⟩],
       last_parking_search := none } : SessionData).history
      = (initSession none).history ++ [⟨"parking near X", not_found_response "Testville"⟩]
    ∨ (locFound (envNF.extract_location "parking near X") = none
       ∧ envNF.chatResult.content? = none
       ∧ not_found_response "Testville" = chat_fallback_response
       ∧ ({ history := [⟨"parking near X", not_found_response "Testville"⟩],
            last_parking_search := none } : SessionData).history
           = (initSession none).history) :=
  claim_C4_amended envNF "parking near X" none (not_found_response "Testville")
    ⟨[⟨"parking near X", not_found_response "Testville"⟩], none⟩ rfl

/-! ## Claim C3 -/

/-- Claim C3: the aggregation path returns at most 10 spots, the backfilled
list stored by a search turn has at most 10 spots, and — for a session whose
cached search (if any) respects the bound — any cached search present after
any completed turn still has at most 10 spots. -/
theorem claim_C3 (env : Env) (lat lng : ℚ) (li : LocationInfo) (input : String)
    (sess : Option SessionData) (resp : String) (out : SessionData) (l : LastSearch)
    (hb : ∀ l0, (initSession sess).last_parking_search = some l0 → l0.spots.length ≤ 10)
    (h : process_query env input sess = Except.ok (resp, out))
    (hl : out.last_parking_search = some l) :
    (search_parking env lat lng).length ≤ 10
    ∧ (search_with_backfill env li).length ≤ 10
    ∧ l.spots.length ≤ 10 := by
  refine ⟨search_parking_len env lat lng, (backfill_len env li).2, ?_⟩
  rcases process_query_shape env input sess resp out h with ⟨-, hlps | ⟨li2, hlps⟩⟩ | ⟨-, -, -, h4⟩
  · apply hb l
    rw [← hlps]
    exact hl
  · rw [hlps] at hl
    obtain rfl := Option.some.inj hl
    exact (backfill_len env li2).2
  · apply hb l
    rw [← h4]
    exact hl

/-- Claim C3, witnessed on a fresh-session search turn that stores the
backfilled list. -/
theorem claim_C3_witness :
    (search_parking envEmpty locTest.lat locTest.lng).length ≤ 10
    ∧ (search_with_backfill envEmpty locTest).length ≤ 10
    ∧ (LastSearch.mk (search_with_backfill envEmpty locTest) "Testville").spots.length ≤ 10 :=
  claim_C3 envEmpty locTest.lat locTest.lng locTest "parking near X" none "ok"
    ⟨[⟨"parking near X", "ok"⟩], some ⟨search_with_backfill envEmpty locTest, "Testville"⟩⟩
    ⟨search_with_backfill envEmpty locTest, "Testville"⟩
    (fun _ h0 => Option.noConfusion h0) rfl rfl
